import Mathlib

/-!
Verification of the jambonz feature-server webhook requestors
(`lib/utils/ws-requestor.js`, `lib/utils/http-requestor-optimized.js`,
`lib/utils/connection-pool-manager.js`) against their natural-language
specification.  JavaScript code is shallowly embedded: numbers are `Nat`/`Int`,
JSON values are an inductive `JVal`, `Map`s are association lists, fallible
code returns `Except`, and the asynchronous event handlers of the WebSocket
requestor become a step function on an explicit state record.
-/

namespace Jambonz

/-- A JSON value, the payloads carried by webhook bodies and WS frames. -/
inductive JVal : Type where
  | null : JVal
  | bool (b : Bool) : JVal
  | num (n : Int) : JVal
  | str (s : String) : JVal
  | arr (xs : List JVal) : JVal
  | obj (fields : List (String × JVal)) : JVal

/-- Lookup in a JS `Map` / object modelled as an association list
(first binding wins; JS maps hold each key at most once). -/
def mfind (k : String) (l : List (String × α)) : Option α :=
  (l.find? (fun p => p.1 == k)).map (·.2)

/-- Model of `Map.delete` on the association-list model. -/
def mdel (k : String) (l : List (String × α)) : List (String × α) :=
  l.filter (fun p => ¬ p.1 == k)

/-- Model of `Map.set` on the association-list model. -/
def mset (k : String) (v : α) (l : List (String × α)) : List (String × α) :=
  mdel k l ++ [(k, v)]

/-- Numeric value of a list of decimal digit characters. -/
def digitsVal (cs : List Char) : Nat :=
  cs.foldl (fun a c => a * 10 + (c.toNat - 48)) 0

/-- The maximal decimal-digit prefix of a character list, `none` when empty
(modelling `parseInt` returning `NaN`). -/
def digitsPrefixVal (cs : List Char) : Option Nat :=
  let ds := cs.takeWhile Char.isDigit
  if ds.isEmpty then none else some (digitsVal ds)

/-- Model of JavaScript `parseInt(s)` (radix 10, no surrounding whitespace):
an optional sign followed by the maximal digit prefix; `none` models `NaN`. -/
def jsParseInt (s : String) : Option Int :=
  match s.data with
  | '-' :: rest => (digitsPrefixVal rest).map (fun n => -(n : Int))
  | '+' :: rest => (digitsPrefixVal rest).map (fun n => (n : Int))
  | cs => (digitsPrefixVal cs).map (fun n => (n : Int))

/-- Model of `x || d` for a JS number `x` that may be `NaN` (`none`) or `0`:
both are falsy, so the default is taken. -/
def jsOrInt (v : Option Int) (d : Int) : Int :=
  match v with
  | none => d
  | some n => if n = 0 then d else n

/-- Model of `s || d` for a JS string that may be `undefined` (`none`) or
empty: both are falsy. -/
def jsOrStr (v : Option String) (d : String) : String :=
  match v with
  | none => d
  | some s => if s = "" then d else s

/-- Whether the second character list occurs at the start of the first. -/
def startsWithChars : List Char → List Char → Bool
  | _, [] => true
  | [], _ :: _ => false
  | b :: bs, p :: ps => b == p && startsWithChars bs ps

/-- Whether the second character list occurs anywhere inside the first. -/
def containsChars : List Char → List Char → Bool
  | [], sub => sub.isEmpty
  | b :: bs, sub => startsWithChars (b :: bs) sub || containsChars bs sub

/-- Model of `String.prototype.includes`. -/
def jsIncludes (s sub : String) : Bool :=
  containsChars s.data sub.data

/-- Truthiness of a possibly-undefined boolean property
(`undefined` is falsy). -/
def jsTruthy (b : Option Bool) : Bool := b.getD false

/-! ## HTTP status handling (`http-requestor-optimized.js` `makeRequest`) -/

/-- Result of a successful webhook: a parsed JSON body or the empty string. -/
inductive HookResponse : Type where
  | json (body : JVal) : HookResponse
  | empty : HookResponse

/-- Errors surfaced by the optimized HTTP requestor. -/
inductive HttpErr : Type where
  | responseError (statusCode : Nat) : HttpErr
  | typeError (msg : String) : HttpErr
deriving DecidableEq

/-- The literal accepted-status list at `http-requestor-optimized.js:244`:
`[200, 202, 204].includes(statusCode)`. -/
def acceptedStatuses : List Nat := [200, 202, 204]

/-- Model of `response.headers['content-type']?.includes('application/json')`
(`http-requestor-optimized.js:249`): optional chaining makes a missing
header falsy. -/
def ctIsJson (contentType : Option String) : Bool :=
  match contentType with
  | some ct => jsIncludes ct "application/json"
  | none => false

/-- Status/content-type handling of `makeRequest`
(`http-requestor-optimized.js:242-253`): a status outside `[200, 202, 204]`
throws `HTTPResponseError(statusCode)`; otherwise a `content-type` containing
`application/json` yields the parsed body, and anything else yields `''`. -/
def makeRequestStatus (statusCode : Nat) (contentType : Option String)
    (body : JVal) : Except HttpErr HookResponse :=
  if ¬ acceptedStatuses.contains statusCode then
    .error (.responseError statusCode)
  else if ctIsJson contentType then
    .ok (.json body)
  else
    .ok .empty

/-! ## Retry counts and backoff (`ws-requestor.js:54,130-174,478`,
`http-requestor-optimized.js:151,159-184`) -/

/-- From `ws-requestor.js:54`:
`Math.min(Math.abs(parseInt(hashObj.rc) || MAX_RECONNECTS), 5)`.
`rc = none` models a fragment without `rc` (`parseInt(undefined)` is `NaN`). -/
def wsMaxReconnects (rc : Option String) (maxReconnectsEnv : Int) : Nat :=
  min (jsOrInt (rc.bind jsParseInt) maxReconnectsEnv).natAbs 5

/-- From `http-requestor-optimized.js:151`:
`Math.min(Math.abs(parseInt(hashObj.rc || '0')), 5)`.
`none` in the result models `NaN` (non-numeric `rc`). -/
def httpMaxRetries (rc : Option String) : Option Nat :=
  (jsParseInt (jsOrStr rc "0")).map (fun n => min n.natAbs 5)

/-- Attempt counter for the shared retry-loop shape of
`ws-requestor.js:133-169` and `http-requestor-optimized.js:159-184`:
`while (retryCount <= maxRetries) { try { attempt; break } catch {
retryCount++; if (retryCount <= maxRetries && shouldRetry) continue; break } }`.
`remaining` is `maxRetries + 1 - retryCount`; `attemptOk k` is whether the
k-th attempt (0-based) succeeds; `shouldRetry` collapses
`this._shouldRetry(error, retryPolicyValues)` together with the WS side's
`retryPolicyValues?.length` guard (the policy list is never empty: it comes
from `String.split`). -/
def retryAttemptsAux (attemptOk : Nat → Bool) (shouldRetry : Bool) :
    Nat → Nat → Nat
  | _, 0 => 0
  | k, r + 1 =>
    if attemptOk k then 1
    else if 0 < r ∧ shouldRetry then 1 + retryAttemptsAux attemptOk shouldRetry (k + 1) r
    else 1

/-- Total number of attempts the retry loop makes with limit `maxRetries`. -/
def retryAttempts (attemptOk : Nat → Bool) (shouldRetry : Bool)
    (maxRetries : Nat) : Nat :=
  retryAttemptsAux attemptOk shouldRetry 0 (maxRetries + 1)

/-- The WS backoff sequence (`ws-requestor.js:38,158-159,478`):
`backoffMs` starts at 500 and after each use becomes
`backoffMs < 2000 ? backoffMs * 2 : backoffMs + 2000`.
`wsBackoffSeq k` is the delay before the (k+1)-th retry. -/
def wsBackoffSeq : Nat → Nat
  | 0 => 500
  | n + 1 =>
    let b := wsBackoffSeq n
    if b < 2000 then b * 2 else b + 2000

/-- The backoff rule as the spec words it (for comparison with the code):
"Exponential backoff starting at 500 ms, capped by doubling then +2000 ms
each attempt". -/
def specBackoffRule : Nat → Nat
  | 0 => 500
  | n + 1 =>
    let b := specBackoffRule n
    if b < 2000 then b * 2 else b + 2000

/-- The HTTP retry delay (`http-requestor-optimized.js:178`):
`this.backoffMs * Math.pow(2, retryCount - 1)` with `backoffMs` fixed at 500
(the optimized HTTP requestor never mutates it). `retryCount ≥ 1`. -/
def httpRetryDelay (retryCount : Nat) : Nat :=
  500 * 2 ^ (retryCount - 1)

/-! ## Cross-transport handover (`ws-requestor.js:94-105`,
`http-requestor-optimized.js:132-143`) -/

/-- The transport kind of a requestor. -/
inductive TransportKind : Type where
  | http : TransportKind
  | ws : TransportKind
deriving DecidableEq

/-- A newly constructed requestor, identified by the constructor arguments
`(logger, account_sid, hook, secret)` passed to `new HttpRequestor(...)` /
`new WsRequestor(...)`. -/
structure NewRequestor where
  kind : TransportKind
  account_sid : String
  hookUrl : String
  secret : Option String
deriving DecidableEq

/-- What one call of `request` did about the cross-transport case. -/
structure CrossSchemeResult where
  constructed : Option NewRequestor
  handoverEmitted : Bool
  closedSelf : Bool
  delegatedType : Option String
deriving DecidableEq

/-- From `http-requestor-optimized.js:132-143`: when the hook URL is absolute and
starts with `ws`, build a `WsRequestor` with `(this.logger, this.account_sid,
h, this.secret)`; only when `type === 'session:redirect'` call `this.close()`
and emit `handover`; in every case delegate to the new requestor with type
`'session:new'` (line 142), whatever the original `type` was. -/
def httpCrossScheme (account_sid : String) (secret : Option String)
    (type url : String) (urlAbsWs : Bool) : CrossSchemeResult :=
  if urlAbsWs then
    let r : NewRequestor := ⟨.ws, account_sid, url, secret⟩
    if type = "session:redirect" then ⟨some r, true, true, some "session:new"⟩
    else ⟨some r, false, false, some "session:new"⟩
  else ⟨none, false, false, none⟩

/-! ## Connection pooling (`http-requestor-optimized.js:49-54,72-99,212-254`,
`connection-pool-manager.js`) -/

/-- From `http-requestor-optimized.js:49`:
`this._usePools = HTTP_POOL && parseInt(HTTP_POOL)`; the truthiness of that
value (`undefined`, `''`, `NaN` and `0` are all falsy). -/
def usePoolsOf (httpPoolEnv : Option String) : Bool :=
  match httpPoolEnv with
  | none => false
  | some s =>
    if s = "" then false
    else match jsParseInt s with
      | none => false
      | some n => !(n == 0)

/-- The fields of `OptimizedHttpRequestor` deciding claim C10: the
constructor (`http-requestor-optimized.js:49-54`) assigns `this.poolManager`
only when `this._usePools` is truthy, so otherwise the property stays
`undefined` (`none`). -/
structure OptimizedHttpRequestor where
  usePools : Bool
  poolManager : Option Unit
deriving DecidableEq

/-- The constructor of `OptimizedHttpRequestor`, restricted to the pooling
fields. -/
def mkOptimizedHttpRequestor (httpPoolEnv : Option String) :
    OptimizedHttpRequestor :=
  let u := usePoolsOf httpPoolEnv
  { usePools := u, poolManager := if u then some () else none }

/-- The client configuration chosen by `getClientConfig`. -/
inductive ClientCfg : Type where
  | pooled (url : String) : ClientCfg
  | single (url : String) : ClientCfg
deriving DecidableEq

/-- Model of `getClientConfig` (`http-requestor-optimized.js:72-99`): the pooled
branch calls `this.poolManager.getPool(...)`; the non-pooled branch evaluates
`this.poolManager.getClient(absUrl)` (line 93), which throws a `TypeError`
when `this.poolManager` is `undefined`. -/
def getClientConfig (r : OptimizedHttpRequestor) (absUrl : String) :
    Except HttpErr ClientCfg :=
  if r.usePools then
    match r.poolManager with
    | some _ => .ok (.pooled absUrl)
    | none => .error (.typeError "this.poolManager is undefined")
  else
    match r.poolManager with
    | some _ => .ok (.single absUrl)
    | none => .error (.typeError "this.poolManager is undefined")

/-- Model of `makeRequest` (`http-requestor-optimized.js:212-254`) abstracted over the
network: `getClientConfig` is evaluated first (line 213); the upstream
response `(statusCode, contentType, body)` then goes through the status
handling of lines 242-253. When `HTTP_PROXY_IP` is set, line 237 bypasses
the chosen client, but `getClientConfig` has already run either way. -/
def makeRequestModel (r : OptimizedHttpRequestor) (proxyIp : Option String)
    (absUrl : String) (statusCode : Nat) (contentType : Option String)
    (body : JVal) : Except HttpErr HookResponse := do
  let _cfg ← getClientConfig r absUrl
  let _ := proxyIp
  makeRequestStatus statusCode contentType body

/-! ## Snake-cased hook bodies (`http-requestor-optimized.js:117`,
`ws-requestor.js:189`) -/

/-- Modelled from the spec: `lib/utils/snakecase-keys.js` is not under
`src/`. Snake-casing of one key ("the snake-cased JSON encoding"): each
uppercase letter becomes an underscore followed by its lowercase form. -/
def toSnakeCase (s : String) : String :=
  String.mk (s.data.foldr
    (fun c acc => (if c.isUpper then ['_', c.toLower] else [c]) ++ acc) [])

/-- The exception keys passed at `http-requestor-optimized.js:117` and
`ws-requestor.js:189`: `['customerData', 'sip', 'env_vars', 'args']`. -/
def wsExceptionKeys : List String := ["customerData", "sip", "env_vars", "args"]

mutual

/-- Modelled from the spec: `snakeCaseKeys(params, excl)` — "Body is the
snake-cased JSON encoding of `params` except for the fields `customerData`,
`sip`, `env_vars`, `args` whose inner keys are preserved as-is". Object keys
are snake-cased recursively, but a field whose key is in `excl` keeps its key
and its entire value untouched. -/
def snakeCaseKeys (excl : List String) : JVal → JVal
  | .obj fields => .obj (snakeCaseFields excl fields)
  | .arr xs => .arr (snakeCaseArr excl xs)
  | .null => .null
  | .bool b => .bool b
  | .num n => .num n
  | .str s => .str s

/-- Helper: `snakeCaseKeys` mapped over the elements of a JSON array. -/
def snakeCaseArr (excl : List String) : List JVal → List JVal
  | [] => []
  | x :: xs => snakeCaseKeys excl x :: snakeCaseArr excl xs

/-- Helper: `snakeCaseKeys` applied to the fields of a JSON object. -/
def snakeCaseFields (excl : List String) :
    List (String × JVal) → List (String × JVal)
  | [] => []
  | (k, v) :: rest =>
    (if k ∈ excl then (k, v) else (toSnakeCase k, snakeCaseKeys excl v)) ::
      snakeCaseFields excl rest

end

/-- The hook body built from `params` at `http-requestor-optimized.js:117`
and `ws-requestor.js:189`. -/
def hookPayload (params : JVal) : JVal := snakeCaseKeys wsExceptionKeys params

/-! ## The WebSocket requestor state machine (`ws-requestor.js`) -/

/-- The list `MTYPE_WANTS_ACK` (`ws-requestor.js:16-24`). Despite the name this is
the list of types that do NOT expect an ack: `request` computes
`wantsAck = !MTYPE_WANTS_ACK.includes(type)` (line 75). -/
def MTYPE_WANTS_ACK : List String :=
  ["call:status", "verb:status", "jambonz:error", "llm:event",
   "llm:tool-call", "tts:streaming-event", "tts:tokens-result"]

/-- How the promise of an ack-expecting send was settled: `success(data)`
resolves it; `failure(err)` rejects it with the timeout message
(`'timeout from far end for msgid ...'`) or with the abandonment message
(`'abandoning msgid ... since socket is closed'`). -/
inductive AckOutcome : Type where
  | resolved (data : JVal) : AckOutcome
  | rejectedTimeout (msgid : String) : AckOutcome
  | rejectedAbandoned (msgid : String) : AckOutcome

/-- Whether an outcome is a resolution. -/
def AckOutcome.isResolved : AckOutcome → Bool
  | .resolved _ => true
  | _ => false

/-- Whether an outcome is the ack-timeout rejection. -/
def AckOutcome.isTimeout : AckOutcome → Bool
  | .rejectedTimeout _ => true
  | _ => false

/-- The observable state of a `WsRequestor` (`ws-requestor.js:31-59`).
`messagesInFlight` maps each msgid to the identity (`pid`) of the promise
registered for it; `settled` records, in order, how those promises were
settled; `isBinaryProp` models the instance property `this.isBinary` read at
line 482, which no code path ever assigns. -/
structure WsState where
  account_sid : String
  secret : Option String
  maliciousClient : Bool
  closedGracefully : Bool
  wsOpen : Bool
  connections : Nat
  maxReconnects : Nat
  messagesInFlight : List (String × Nat)
  initMsgId : Option String
  settled : List (Nat × AckOutcome)
  isBinaryProp : Option Bool

/-- The `WsRequestor` constructor state (`ws-requestor.js:32-59`): no socket,
no messages in flight, nothing settled, `this.isBinary` left `undefined`. -/
def mkWsRequestor (account_sid : String) (secret : Option String)
    (maxReconnects : Nat) : WsState :=
  { account_sid := account_sid, secret := secret, maliciousClient := false,
    closedGracefully := false, wsOpen := false, connections := 0,
    maxReconnects := maxReconnects, messagesInFlight := [], initMsgId := none,
    settled := [], isBinaryProp := none }

/-- Externally visible actions of one handler invocation. -/
inductive WsAction : Type where
  | sendFrame (type msgid : String) : WsAction
  | closeSocket : WsAction
  | emitHandover (r : NewRequestor) : WsAction
  | delegateHttp (type : String) : WsAction
  | scheduleReconnect : WsAction
  | emitCommand (command : String) : WsAction
  | writeAlert : WsAction
  | sendJambonzError : WsAction
  | nestedReconnectRequest : WsAction
deriving DecidableEq

/-- A parsed inbound frame as destructured at `ws-requestor.js:491-494`.
`notJson` is content `JSON.parse` rejects; `badType` is JSON whose `type` is
missing or unknown. A missing `msgid` on an ack or a missing `command` on a
command makes the corresponding `assert.ok` throw into the same catch block
as a parse failure (lines 498-513). -/
inductive InContent : Type where
  | ack (msgid : Option String) (data : JVal) : InContent
  | command (command : Option String) (data : JVal) : InContent
  | badType : InContent
  | notJson : InContent

/-- Model of `_clearPendingMessages` (`ws-requestor.js:388-395`): every timer is
cancelled; each pending promise is rejected with the abandonment failure,
but only when `this._initMsgId` is unset; the map is cleared. -/
def clearPendingMessages (s : WsState) : WsState :=
  let settled1 :=
    if s.initMsgId.isNone then
      s.messagesInFlight.foldl
        (fun acc p => acc ++ [(p.2, AckOutcome.rejectedAbandoned p.1)]) s.settled
    else s.settled
  { s with messagesInFlight := [], settled := settled1 }

/-- Model of `_recvAck` (`ws-requestor.js:535-546`): `this._initMsgId = null`; an ack
whose msgid has no live entry is discarded; otherwise the entry is removed
and its promise resolved with the ack `data`. -/
def recvAck (msgid : String) (data : JVal) (s : WsState) : WsState :=
  let s1 := { s with initMsgId := none }
  match mfind msgid s1.messagesInFlight with
  | none => s1
  | some pid =>
    { s1 with messagesInFlight := mdel msgid s1.messagesInFlight,
              settled := s1.settled ++ [(pid, .resolved data)] }

/-- The `setTimeout` callback of an ack-expecting send
(`ws-requestor.js:265-269`): look the msgid up; when an entry is live, reject
its promise with the timeout failure; delete the map entry either way. -/
def timerFire (msgid : String) (s : WsState) : WsState :=
  match mfind msgid s.messagesInFlight with
  | some pid =>
    { s with settled := s.settled ++ [(pid, .rejectedTimeout msgid)],
             messagesInFlight := mdel msgid s.messagesInFlight }
  | none => { s with messagesInFlight := mdel msgid s.messagesInFlight }

/-- Model of `close` (`ws-requestor.js:324-338`): set `closedGracefully`, close and
drop the socket when there is one, then `_clearPendingMessages`. -/
def closeOp (s : WsState) : WsState × List WsAction :=
  let s1 := { s with closedGracefully := true }
  if s1.wsOpen then
    (clearPendingMessages { s1 with wsOpen := false }, [WsAction.closeSocket])
  else
    (clearPendingMessages s1, [])

/-- Model of `_onSocketClosed` (`ws-requestor.js:449-459`): drop the socket; when at
least one connect succeeded, the reconnect budget is not exhausted and the
close was not graceful, clear pending messages (unless `_initMsgId` is still
set) and schedule a reconnect. -/
def onSocketClosed (s : WsState) : WsState × List WsAction :=
  let s1 := { s with wsOpen := false }
  if 0 < s1.connections ∧ s1.connections < s1.maxReconnects ∧
      ¬ s1.closedGracefully then
    let s2 := if s1.initMsgId.isNone then clearPendingMessages s1 else s1
    (s2, [WsAction.scheduleReconnect])
  else (s1, [])

/-- Model of `_onClose` (`ws-requestor.js:421-431`): a non-1000 close after a
successful connect emits `socket-closed` (handled synchronously by
`_onSocketClosed`); a 1000 close sets `closedGracefully`; the socket
reference is dropped in every case. -/
def onCloseRemote (code : Nat) (s : WsState) : WsState × List WsAction :=
  if 0 < s.connections ∧ code ≠ 1000 then
    let p := onSocketClosed s
    ({ p.1 with wsOpen := false }, p.2)
  else if code = 1000 then
    ({ s with closedGracefully := true, wsOpen := false }, [])
  else
    ({ s with wsOpen := false }, [])

/-- Model of `_onMessage` (`ws-requestor.js:481-533`). The guard at line 482 reads
`this.isBinary` — the never-assigned instance property — NOT the `isBinary`
callback parameter, which is ignored; the parameter is kept here to record
what the `ws` library delivered. The catch block (lines 515-532) writes an
`INVALID_APP_PAYLOAD` alert and issues a nested
`this.request('jambonz:error', '/error', params)`; that type is in
`MTYPE_WANTS_ACK`, so the nested call registers nothing in
`messagesInFlight` and is recorded as an action. -/
def onMessage (content : InContent) (isBinary : Bool) (s : WsState) :
    WsState × List WsAction :=
  if jsTruthy s.isBinaryProp then
    ({ s with maliciousClient := true }, [WsAction.closeSocket])
  else
    let _ := isBinary
    match content with
    | .ack (some m) d => (recvAck m d s, [])
    | .command (some c) _ => (s, [WsAction.emitCommand c])
    | _ => (s, [WsAction.writeAlert, WsAction.sendJambonzError])

/-- The per-call inputs of `request` (`ws-requestor.js:72`): the message
type, whether `HookMsgTypes.includes(type)` holds (`constants.json` is not
under `src/`), whether the hook URL is absolute with an `http(s)` scheme
(line 95), the fresh `msgid` from `short.generate()` (line 194), the
identity `pid` of the promise a registering send would create, the outcome
of the connect retry loop should one be needed (lines 129-180, the loop
itself is modelled by `retryAttempts`), the hook URL and the payload. -/
structure ReqInput where
  type : String
  typeValid : Bool
  urlAbsHttp : Bool
  msgid : String
  pid : Nat
  connectOk : Bool
  url : String
  data : JVal

/-- How one `request` call returned. -/
inductive ReqResult : Type where
  | assertFailed : ReqResult
  | discardedMalicious : ReqResult
  | discardedClosed : ReqResult
  | delegatedHttp : ReqResult
  | connectFailed : ReqResult
  | sentNoAck : ReqResult
  | sentAwaitingAck : ReqResult
deriving DecidableEq

/-- Model of `request` (`ws-requestor.js:72-315`) as one atomic step, in source
order: the `assert` on the type; `wantsAck = !MTYPE_WANTS_ACK.includes(type)`
(line 75); the malicious-client discard (77-80); the graceful-close discard
(81-84); the cross-scheme delegation to a fresh `HttpRequestor` with
`close()` + `handover` only for `session:redirect` (94-105); connecting when
there is no socket, whose success runs `_onOpen` (sets the socket, bumps
`connections`) and whose `ready` handler issues a nested
`session:reconnect` request when this was a reconnect (340-377, 407-419);
recording `_initMsgId` for `session:new` (196); re-keying the in-flight
entry when reconnecting before the initial ack (243-251) — when the old
entry is missing JS stores `undefined` under the new msgid, which every
reader (`_recvAck`) treats as absent; finally the simple send (253-260) or
the registering send (262-314). -/
def request (ri : ReqInput) (s : WsState) : WsState × List WsAction × ReqResult :=
  if ¬ ri.typeValid then (s, [], .assertFailed)
  else
    let wantsAck := ¬ MTYPE_WANTS_ACK.contains ri.type
    if s.maliciousClient then (s, [], .discardedMalicious)
    else if s.closedGracefully then (s, [], .discardedClosed)
    else if ri.urlAbsHttp then
      let newReq : NewRequestor := ⟨.http, s.account_sid, ri.url, s.secret⟩
      if ri.type = "session:redirect" then
        let p := closeOp s
        (p.1, p.2 ++ [WsAction.emitHandover newReq,
                      WsAction.delegateHttp ri.type], .delegatedHttp)
      else
        (s, [WsAction.delegateHttp ri.type], .delegatedHttp)
    else if ¬ s.wsOpen ∧ ¬ ri.connectOk then
      (s, [], .connectFailed)
    else
      let s1 := if ¬ s.wsOpen then
          { s with wsOpen := true, connections := s.connections + 1 } else s
      let connActs : List WsAction :=
        if ¬ s.wsOpen ∧ 0 < s.connections then
          [WsAction.nestedReconnectRequest] else []
      let s2 := if ri.type = "session:new" then
          { s1 with initMsgId := some ri.msgid } else s1
      match (if ri.type = "session:reconnect" then s2.initMsgId else none) with
      | some m1 =>
        let s3 :=
          match mfind m1 s2.messagesInFlight with
          | some pid =>
            { s2 with
                messagesInFlight := mset ri.msgid pid (mdel m1 s2.messagesInFlight),
                initMsgId := some ri.msgid }
          | none =>
            { s2 with messagesInFlight := mdel m1 s2.messagesInFlight,
                      initMsgId := some ri.msgid }
        (s3, connActs ++ [WsAction.sendFrame ri.type ri.msgid], .sentNoAck)
      | none =>
        if ¬ wantsAck then
          (s2, connActs ++ [WsAction.sendFrame ri.type ri.msgid], .sentNoAck)
        else
          ({ s2 with
               messagesInFlight := mset ri.msgid ri.pid s2.messagesInFlight },
           connActs ++ [WsAction.sendFrame ri.type ri.msgid], .sentAwaitingAck)

/-- The events a live `WsRequestor` reacts to. -/
inductive WsEvent : Type where
  | evRequest (ri : ReqInput) : WsEvent
  | evClose : WsEvent
  | evRemoteClose (code : Nat) : WsEvent
  | evMessage (content : InContent) (isBinary : Bool) : WsEvent
  | evTimer (msgid : String) : WsEvent

/-- One handler invocation. -/
def wsStep (e : WsEvent) (s : WsState) : WsState × List WsAction :=
  match e with
  | .evRequest ri =>
    let p := request ri s
    (p.1, p.2.1)
  | .evClose => closeOp s
  | .evRemoteClose code => onCloseRemote code s
  | .evMessage c b => onMessage c b s
  | .evTimer m => (timerFire m s, [])

/-- A sequence of handler invocations. -/
def wsRun (s : WsState) (tr : List WsEvent) : WsState :=
  tr.foldl (fun s e => (wsStep e s).1) s

/-! ## Map lemmas -/

theorem mfind_mdel_self (k : String) (l : List (String × α)) :
    mfind k (mdel k l) = none := by
  unfold mfind mdel
  rw [Option.map_eq_none', List.find?_eq_none]
  intro p hp
  have := List.of_mem_filter hp
  simpa using this

theorem mfind_mdel_ne (k k2 : String) (h : k ≠ k2) (l : List (String × α)) :
    mfind k (mdel k2 l) = mfind k l := by
  induction l with
  | nil => rfl
  | cons a l ih =>
    unfold mfind mdel at ih ⊢
    by_cases hk2 : a.1 = k2
    · rw [List.filter_cons_of_neg (by simp [hk2])]
      rw [List.find?_cons_of_neg]
      · exact ih
      · simp only [hk2]
        simp [Ne.symm h]
    · rw [List.filter_cons_of_pos (by simp [hk2])]
      by_cases hk : a.1 = k
      · rw [List.find?_cons_of_pos _ (by simp [hk]),
            List.find?_cons_of_pos _ (by simp [hk])]
      · rw [List.find?_cons_of_neg _ (by simp [hk]),
            List.find?_cons_of_neg _ (by simp [hk])]
        exact ih

theorem mfind_mset_self (k : String) (v : α) (l : List (String × α)) :
    mfind k (mset k v l) = some v := by
  unfold mset
  have hnone := mfind_mdel_self k l (α := α)
  unfold mfind at hnone ⊢
  rw [List.find?_append]
  rw [Option.map_eq_none'] at hnone
  rw [hnone]
  simp [List.find?]

theorem mem_of_mem_mdel {k : String} {l : List (String × α)} {p : String × α}
    (h : p ∈ mdel k l) : p ∈ l :=
  List.mem_of_mem_filter h

theorem key_ne_of_mem_mdel {k : String} {l : List (String × α)}
    {p : String × α} (h : p ∈ mdel k l) : p.1 ≠ k := by
  have := List.of_mem_filter h
  simpa using this

theorem mfind_some_mem {k : String} {l : List (String × α)} {v : α}
    (h : mfind k l = some v) : (k, v) ∈ l := by
  unfold mfind at h
  rw [Option.map_eq_some'] at h
  obtain ⟨p, hp, hv⟩ := h
  have hmem := List.mem_of_find?_eq_some hp
  have hpred := List.find?_some hp
  have hk : p.1 = k := by simpa using hpred
  have : p = (k, v) := by
    cases p
    simp_all
  rw [← this]
  exact hmem

/-! ## Claim C5 — HTTP status handling -/

/-- C5 counterexample: status 201 is a 2xx status and the content-type is
`application/json`, yet `makeRequest` throws `HTTPResponseError(201)` instead
of returning the parsed body — the code accepts only 200, 202 and 204
(`http-requestor-optimized.js:244`), not every 2xx status. -/
theorem claim_C5_counterexample :
    makeRequestStatus 201 (some "application/json") JVal.null
      = Except.error (HttpErr.responseError 201) ∧
    Except.error (HttpErr.responseError 201)
      ≠ (Except.ok (HookResponse.json JVal.null) :
          Except HttpErr HookResponse) := by
  constructor
  · rfl
  · intro h
    exact Except.noConfusion h

/-- C5 (amended): a status in `{200, 202, 204}` with a JSON content-type
yields the parsed JSON body; a status in `{200, 202, 204}` with any other
content-type yields the empty result; any other status — including every
other 2xx status such as 201 — makes the request fail with
`HTTPResponseError` carrying that status code. -/
theorem claim_C5_amended (statusCode : Nat) (contentType : Option String)
    (body : JVal) :
    (statusCode ∈ acceptedStatuses → ctIsJson contentType = true →
      makeRequestStatus statusCode contentType body
        = .ok (.json body)) ∧
    (statusCode ∈ acceptedStatuses → ctIsJson contentType = false →
      makeRequestStatus statusCode contentType body = .ok .empty) ∧
    (statusCode ∉ acceptedStatuses →
      makeRequestStatus statusCode contentType body
        = .error (.responseError statusCode)) := by
  refine ⟨?_, ?_, ?_⟩ <;> intro hmem <;> unfold makeRequestStatus
  · intro hct
    rw [if_neg (by simpa using hmem), if_pos hct]
  · intro hct
    rw [if_neg (by simpa using hmem), if_neg (by simp [hct])]
  · rw [if_pos (by simpa using hmem)]

/-- Witness for the amended C5 at status 202 with a JSON content-type. -/
theorem claim_C5_amended_witness :
    202 ∈ acceptedStatuses ∧ ctIsJson (some "application/json") = true ∧
    makeRequestStatus 202 (some "application/json") JVal.null
      = .ok (.json JVal.null) :=
  ⟨by decide, by decide,
    (claim_C5_amended 202 (some "application/json") JVal.null).1
      (by decide) (by decide)⟩

/-! ## Claim C6 — `rc` clamping -/

/-- Bound for the retry loop: at most `remaining` attempts are made. -/
theorem retryAttemptsAux_le (attemptOk : Nat → Bool) (sr : Bool) :
    ∀ r k, retryAttemptsAux attemptOk sr k r ≤ r := by
  intro r
  induction r with
  | zero => intro k; simp [retryAttemptsAux]
  | succ n ih =>
    intro k
    simp only [retryAttemptsAux]
    split
    · omega
    · split
      · have := ih (k + 1)
        omega
      · omega

/-- Bound for the retry loop: at most `maxRetries + 1` attempts are made. -/
theorem retryAttempts_le (attemptOk : Nat → Bool) (sr : Bool) (m : Nat) :
    retryAttempts attemptOk sr m ≤ m + 1 :=
  retryAttemptsAux_le attemptOk sr (m + 1) 0

/-- C6 counterexample: with `#rc=1` both requestors set the clamped limit to
`min(|1|,5) = 1`, but when every attempt fails and the retry policy matches,
the loop makes 2 attempts — the number of attempts is `min(|N|,5) + 1`, not
`min(|N|,5)`. -/
theorem claim_C6_counterexample :
    httpMaxRetries (some "1") = some 1 ∧
    wsMaxReconnects (some "1") 5 = 1 ∧
    retryAttempts (fun _ => false) true 1 = 2 ∧
    ¬ retryAttempts (fun _ => false) true 1 ≤ min (Int.natAbs 1) 5 := by
  refine ⟨by decide, by decide, by decide, by decide⟩

/-- C6 (amended): for a fragment `rc=N` with `N` a nonzero integer string,
both requestors clamp the retry LIMIT to `min(|N|,5)`, which lies in
`[1,5]`; the number of attempts is bounded by `min(|N|,5) + 1` (one initial
attempt plus up to `min(|N|,5)` retries), not by `min(|N|,5)`. For `N = 0`
the value is falsy: the WS side falls back to `MAX_RECONNECTS` and the HTTP
side (whose default is `'0'`) gets limit `0`. -/
theorem claim_C6_amended (s : String) (N : Int) (menv : Int)
    (hparse : jsParseInt s = some N) (hs : s ≠ "") (hN : N ≠ 0)
    (attemptOk : Nat → Bool) (shouldRetry : Bool) :
    wsMaxReconnects (some s) menv = min N.natAbs 5 ∧
    httpMaxRetries (some s) = some (min N.natAbs 5) ∧
    1 ≤ min N.natAbs 5 ∧ min N.natAbs 5 ≤ 5 ∧
    retryAttempts attemptOk shouldRetry (min N.natAbs 5)
      ≤ min N.natAbs 5 + 1 := by
  have habs : 1 ≤ N.natAbs := by
    rcases Int.natAbs_eq N with h | h <;> omega
  refine ⟨?_, ?_, ?_, ?_, retryAttempts_le _ _ _⟩
  · unfold wsMaxReconnects
    rw [show (some s).bind jsParseInt = jsParseInt s from rfl, hparse]
    simp only [jsOrInt]
    rw [if_neg hN]
  · unfold httpMaxRetries
    rw [show jsOrStr (some s) "0" = if s = "" then "0" else s from rfl,
        if_neg hs, hparse]
    rfl
  · omega
  · omega

/-- Witness for the amended C6 at `rc=3`. -/
theorem claim_C6_amended_witness :
    jsParseInt "3" = some 3 ∧ ("3" : String) ≠ "" ∧ (3 : Int) ≠ 0 ∧
    wsMaxReconnects (some "3") 5 = min (Int.natAbs 3) 5 ∧
    httpMaxRetries (some "3") = some (min (Int.natAbs 3) 5) ∧
    retryAttempts (fun _ => false) true (min (Int.natAbs 3) 5)
      ≤ min (Int.natAbs 3) 5 + 1 := by
  have h := claim_C6_amended "3" 3 5 (by decide) (by decide) (by decide)
    (fun _ => false) true
  exact ⟨by decide, by decide, by decide, h.1, h.2.1, h.2.2.2.2⟩

/-! ## Claim C7 — backoff sequence and attempt bound -/

/-- C7 counterexample: with `rc=5` the limit is 5 and a fully failing,
retryable connect makes 6 attempts, not at most 5; moreover the HTTP delay
before the 5th retry is `500·2^4 = 8000` ms where the spec's backoff rule
(500, double below 2000, then +2000) gives 6000 ms. -/
theorem claim_C7_counterexample :
    wsMaxReconnects (some "5") 5 = 5 ∧
    retryAttempts (fun _ => false) true 5 = 6 ∧ ¬ (6 : Nat) ≤ 5 ∧
    httpRetryDelay 5 = 8000 ∧ specBackoffRule 4 = 6000 ∧
    httpRetryDelay 5 ≠ specBackoffRule 4 := by
  refine ⟨by decide, by decide, by decide, by decide, by decide, by decide⟩

/-- C7 (amended): the WS backoff sequence follows the spec's rule exactly
(500 ms, doubling while below 2000 ms, then +2000 ms per step: 500, 1000,
2000, 4000, 6000, …); the HTTP retry delay is `500·2^(k-1)` ms, which agrees
with the rule for the first four retries and departs from it afterwards; two
retries after an initial failure wait 500 ms then 1000 ms on both paths; the
clamped limit never exceeds 5, so at most `5 + 1 = 6` attempts are made —
not 5. -/
theorem claim_C7_amended (n : Nat) (k : Nat) (hk1 : 1 ≤ k) (hk4 : k ≤ 4)
    (attemptOk : Nat → Bool) (sr : Bool) (m : Nat) (hm : m ≤ 5) :
    wsBackoffSeq n = specBackoffRule n ∧
    wsBackoffSeq 0 = 500 ∧ wsBackoffSeq 1 = 1000 ∧
    httpRetryDelay 1 = 500 ∧ httpRetryDelay 2 = 1000 ∧
    httpRetryDelay k = specBackoffRule (k - 1) ∧
    retryAttempts attemptOk sr m ≤ 6 := by
  refine ⟨?_, by decide, by decide, by decide, by decide, ?_, ?_⟩
  · induction n with
    | zero => rfl
    | succ i ih => simp only [wsBackoffSeq, specBackoffRule, ih]
  · interval_cases k <;> decide
  · have := retryAttempts_le attemptOk sr m
    omega

/-- Witness for the amended C7 at `n = 4`, `k = 2`, limit 5. -/
theorem claim_C7_amended_witness :
    (1 : Nat) ≤ 2 ∧ (2 : Nat) ≤ 4 ∧ (5 : Nat) ≤ 5 ∧
    wsBackoffSeq 4 = specBackoffRule 4 ∧
    httpRetryDelay 2 = specBackoffRule 1 ∧
    retryAttempts (fun _ => false) true 5 ≤ 6 := by
  have h := claim_C7_amended 4 2 (by decide) (by decide)
    (fun _ => false) true 5 (by decide)
  exact ⟨by decide, by decide, by decide, h.1, h.2.2.2.2.2.1, h.2.2.2.2.2.2⟩

/-! ## Claim C4 — cross-transport handover -/

/-- A connected `WsRequestor` carrying credentials, for the handover tests. -/
def c4State : WsState :=
  { mkWsRequestor "acct" (some "sec") 5 with wsOpen := true, connections := 1 }

/-- A non-redirect request whose hook resolved to an `http(s)` URL. -/
def c4Input : ReqInput :=
  { type := "verb:hook", typeValid := true, urlAbsHttp := true, msgid := "m1",
    pid := 0, connectOk := true, url := "https://app.example/a",
    data := JVal.null }

/-- C4 counterexample: a `verb:hook` request from the WS requestor whose URL
resolved to `https://…` constructs an `HttpRequestor` and delegates to it,
but emits NO `handover` event and does not close itself — `handover` and
`close()` happen only when `type === 'session:redirect'`
(`ws-requestor.js:100-103`); symmetrically a `session:new` over a
`wss://…` URL seen by the HTTP requestor emits no `handover` either
(`http-requestor-optimized.js:138-141`). -/
theorem claim_C4_counterexample :
    (request c4Input c4State).2.1 = [WsAction.delegateHttp "verb:hook"] ∧
    WsAction.emitHandover
        ⟨TransportKind.http, "acct", "https://app.example/a", some "sec"⟩
      ∉ (request c4Input c4State).2.1 ∧
    (request c4Input c4State).1.closedGracefully = false ∧
    (httpCrossScheme "acct" (some "sec") "session:new"
        "wss://app.example/ws" true).handoverEmitted = false ∧
    ((httpCrossScheme "acct" (some "sec") "session:new"
        "wss://app.example/ws" true).constructed).isSome = true := by
  refine ⟨rfl, by decide, rfl, rfl, rfl⟩

/-- C4 (amended): for every request whose resolved URL implies the other
transport, a requestor of the other kind is constructed with the same
`account_sid` and `secret` and the request is delegated to it (the HTTP→WS
direction always delegates as `session:new`); the `handover` event and the
`close()` on self both happen exactly when the message type is
`session:redirect`. -/
theorem claim_C4_amended (s : WsState) (ri : ReqInput)
    (hvalid : ri.typeValid = true) (hmal : s.maliciousClient = false)
    (hcl : s.closedGracefully = false) (hhttp : ri.urlAbsHttp = true)
    (acct : String) (secret : Option String) (type url : String) :
    (ri.type = "session:redirect" →
      request ri s =
        ((closeOp s).1,
         (closeOp s).2 ++ [WsAction.emitHandover
             ⟨TransportKind.http, s.account_sid, ri.url, s.secret⟩,
           WsAction.delegateHttp ri.type], ReqResult.delegatedHttp)) ∧
    (ri.type ≠ "session:redirect" →
      request ri s =
        (s, [WsAction.delegateHttp ri.type], ReqResult.delegatedHttp)) ∧
    (httpCrossScheme acct secret type url true).constructed
      = some ⟨TransportKind.ws, acct, url, secret⟩ ∧
    ((httpCrossScheme acct secret type url true).handoverEmitted = true
      ↔ type = "session:redirect") ∧
    ((httpCrossScheme acct secret type url true).closedSelf = true
      ↔ type = "session:redirect") ∧
    (httpCrossScheme acct secret type url true).delegatedType
      = some "session:new" := by
  refine ⟨?_, ?_, ?_, ?_, ?_, ?_⟩
  · intro ht
    simp [request, hvalid, hmal, hcl, hhttp, ht]
  · intro ht
    simp [request, hvalid, hmal, hcl, hhttp, ht]
  all_goals by_cases ht : type = "session:redirect" <;>
    simp [httpCrossScheme, ht]

/-- Witness for the amended C4: a `session:redirect` over an `https://` URL
closes the WS requestor, emits `handover` and delegates. -/
theorem claim_C4_amended_witness :
    ({ c4Input with type := "session:redirect" } : ReqInput).typeValid = true ∧
    c4State.maliciousClient = false ∧ c4State.closedGracefully = false ∧
    request { c4Input with type := "session:redirect" } c4State =
      ((closeOp c4State).1,
       (closeOp c4State).2 ++ [WsAction.emitHandover
           ⟨TransportKind.http, "acct", "https://app.example/a", some "sec"⟩,
         WsAction.delegateHttp "session:redirect"], ReqResult.delegatedHttp) ∧
    (httpCrossScheme "acct" (some "sec") "session:redirect"
        "wss://app.example/ws" true).handoverEmitted = true := by
  have h := claim_C4_amended c4State
    { c4Input with type := "session:redirect" } rfl rfl rfl rfl
    "acct" (some "sec") "session:redirect" "wss://app.example/ws"
  exact ⟨rfl, rfl, rfl, h.1 rfl, h.2.2.2.1.mpr rfl⟩

/-! ## Claim C10 — non-pooled requests dereference a missing pool manager -/

/-- C10: when `HTTP_POOL` is unset or `0`, the constructor leaves
`this.poolManager` unassigned, yet the non-pooled branch of
`getClientConfig` dereferences `this.poolManager.getClient`, so every
request reaching `makeRequest` fails with the `TypeError` rather than
returning a response — whatever the upstream would have answered. -/
theorem claim_C10 (httpPoolEnv : Option String) (proxyIp : Option String)
    (hpool : usePoolsOf httpPoolEnv = false) (hproxy : proxyIp = none)
    (absUrl : String) (statusCode : Nat) (contentType : Option String)
    (body : JVal) :
    (mkOptimizedHttpRequestor httpPoolEnv).usePools = false ∧
    (mkOptimizedHttpRequestor httpPoolEnv).poolManager = none ∧
    makeRequestModel (mkOptimizedHttpRequestor httpPoolEnv) proxyIp absUrl
        statusCode contentType body
      = .error (.typeError "this.poolManager is undefined") := by
  refine ⟨by simp [mkOptimizedHttpRequestor, hpool], by simp [mkOptimizedHttpRequestor, hpool], ?_⟩
  simp [makeRequestModel, getClientConfig, mkOptimizedHttpRequestor, hpool,
    Bind.bind, Except.bind]

/-- Witness for C10 with `HTTP_POOL` unset and no proxy. -/
theorem claim_C10_witness :
    usePoolsOf none = false ∧
    (mkOptimizedHttpRequestor none).poolManager = none ∧
    makeRequestModel (mkOptimizedHttpRequestor none) none "http://x" 200
        (some "application/json") JVal.null
      = .error (.typeError "this.poolManager is undefined") := by
  have h := claim_C10 none none rfl rfl "http://x" 200
    (some "application/json") JVal.null
  exact ⟨rfl, h.2.1, h.2.2⟩

/-! ## Claim C9 — snake-cased bodies preserve the exception fields -/

/-- Inner keys of an excepted field survive the body encoding: the whole
value is kept verbatim, provided no other (snake-cased) key collides with
the excepted key. -/
theorem snakeCaseFields_preserves (k : String) (v : JVal)
    (hk : k ∈ wsExceptionKeys) :
    ∀ fields : List (String × JVal),
      (∀ p ∈ fields, p.1 ∉ wsExceptionKeys → toSnakeCase p.1 ≠ k) →
      mfind k fields = some v →
      mfind k (snakeCaseFields wsExceptionKeys fields) = some v := by
  intro fields
  induction fields with
  | nil =>
    intro _ hfind
    simp [mfind, List.find?] at hfind
  | cons a rest ih =>
    intro hnc hfind
    obtain ⟨k0, v0⟩ := a
    by_cases hk0 : k0 = k
    · subst hk0
      unfold mfind at hfind ⊢
      rw [List.find?_cons_of_pos _ (by simp)] at hfind
      simp only [Option.map_some'] at hfind
      simp only [snakeCaseFields]
      rw [if_pos hk]
      rw [List.find?_cons_of_pos _ (by simp)]
      simpa using hfind
    · unfold mfind at hfind ⊢
      rw [List.find?_cons_of_neg _ (by simp [hk0])] at hfind
      simp only [snakeCaseFields]
      have hnc0 := hnc (k0, v0) (by simp)
      have hrest : ∀ p ∈ rest, p.1 ∉ wsExceptionKeys → toSnakeCase p.1 ≠ k :=
        fun p hp => hnc p (by simp [hp])
      by_cases hmem : k0 ∈ wsExceptionKeys
      · rw [if_pos hmem]
        rw [List.find?_cons_of_neg _ (by simp [hk0])]
        exact ih hrest hfind
      · rw [if_neg hmem]
        rw [List.find?_cons_of_neg _ (by simp [hnc0 hmem])]
        exact ih hrest hfind

/-- C9: the hook body is the snake-cased encoding of `params`, and each of
the fields `customerData`, `sip`, `env_vars`, `args` keeps its entire value
— hence all its inner keys — verbatim, so a round trip through encoding and
decoding restores those inner keys exactly. (The collision hypothesis rules
out a distinct key of `params` snake-casing onto the excepted key, e.g.
`envVars` onto `env_vars`, where the JS object spread would overwrite.) -/
theorem claim_C9 (fields : List (String × JVal)) (k : String) (v : JVal)
    (hk : k ∈ wsExceptionKeys)
    (hnc : ∀ p ∈ fields, p.1 ∉ wsExceptionKeys → toSnakeCase p.1 ≠ k)
    (hfind : mfind k fields = some v) :
    hookPayload (JVal.obj fields)
      = JVal.obj (snakeCaseFields wsExceptionKeys fields) ∧
    mfind k (snakeCaseFields wsExceptionKeys fields) = some v :=
  ⟨rfl, snakeCaseFields_preserves k v hk fields hnc hfind⟩

/-- The object stored under `customerData` in the C9 witness. -/
def c9Inner : JVal := JVal.obj [("FooBar", JVal.num 1), ("x_y", JVal.str "z")]

/-- Sample params: a camel-cased field next to a `customerData` field. -/
def c9Fields : List (String × JVal) :=
  [("callSid", JVal.str "CS"), ("customerData", c9Inner)]

/-- Witness for C9 on `c9Fields`. -/
theorem claim_C9_witness :
    "customerData" ∈ wsExceptionKeys ∧
    mfind "customerData" c9Fields = some c9Inner ∧
    mfind "customerData" (snakeCaseFields wsExceptionKeys c9Fields)
      = some c9Inner := by
  have h := claim_C9 c9Fields "customerData" c9Inner (by decide)
    (by decide) rfl
  exact ⟨by decide, rfl, h.2⟩

/-! ## Claim C1 — the binary-frame guard is dead code -/

/-- A fresh requestor after one successful connect: `this.isBinary` is still
unassigned, as the constructor leaves it. -/
def c1State : WsState :=
  { mkWsRequestor "acct" none 5 with wsOpen := true, connections := 1 }

/-- C1 (code bug): a frame delivered with the binary flag set is NOT
detected. Line 482 of `ws-requestor.js` tests `this.isBinary` — an instance
property no code path ever assigns, hence always `undefined` and falsy —
instead of the `isBinary` callback parameter. The binary frame is processed
as a normal text message (here: consumed as an ack; an unparseable one takes
the invalid-message path), `maliciousClient` stays `false` and the socket is
not closed, contradicting the spec and the unreachable log line inside the
guard. -/
theorem claim_C1_binary_flag_ignored :
    jsTruthy c1State.isBinaryProp = false ∧
    (onMessage (InContent.ack (some "m1") JVal.null) true c1State).1.maliciousClient
      = false ∧
    (onMessage (InContent.ack (some "m1") JVal.null) true c1State).2 = [] ∧
    (onMessage InContent.notJson true c1State).1.maliciousClient = false ∧
    WsAction.closeSocket ∉ (onMessage InContent.notJson true c1State).2 := by
  refine ⟨rfl, rfl, rfl, rfl, by decide⟩

/-! ## Claim C8 — graceful close silences `request` forever -/

theorem clearPendingMessages_closed (s : WsState) :
    (clearPendingMessages s).closedGracefully = s.closedGracefully := rfl

theorem closeOp_closed (s : WsState) :
    (closeOp s).1.closedGracefully = true := by
  simp only [closeOp]
  split <;> rfl

theorem onCloseRemote_1000_closed (s : WsState) :
    (onCloseRemote 1000 s).1.closedGracefully = true := by
  unfold onCloseRemote
  rw [if_neg (by simp)]
  rw [if_pos rfl]

theorem request_closed_discards (s : WsState) (ri : ReqInput)
    (h : s.closedGracefully = true) (hv : ri.typeValid = true) :
    request ri s = (s, [],
      if s.maliciousClient then ReqResult.discardedMalicious
      else ReqResult.discardedClosed) := by
  unfold request
  rw [if_neg (by simp [hv])]
  by_cases hm : s.maliciousClient <;> simp [hm, h]

theorem wsStep_preserves_closed (e : WsEvent) (s : WsState)
    (h : s.closedGracefully = true) :
    (wsStep e s).1.closedGracefully = true := by
  cases e with
  | evRequest ri =>
    by_cases hv : ri.typeValid
    · simp only [wsStep]
      rw [request_closed_discards s ri h hv]
      exact h
    · simp only [wsStep]
      unfold request
      rw [if_pos (by simp [hv])]
      exact h
  | evClose => exact closeOp_closed s
  | evRemoteClose code =>
    simp only [wsStep]
    unfold onCloseRemote onSocketClosed
    by_cases hc : 0 < s.connections ∧ code ≠ 1000
    · rw [if_pos hc, if_neg (by simp [h])]
      exact h
    · rw [if_neg hc]
      split <;> simp [h]
  | evMessage c b =>
    simp only [wsStep]
    unfold onMessage
    split
    · exact h
    · cases c with
      | ack om d =>
        cases om with
        | none => exact h
        | some m =>
          simp only
          unfold recvAck
          cases hf : mfind m ({ s with initMsgId := none } : WsState).messagesInFlight <;>
            simp [hf, h]
      | command oc d =>
        cases oc with
        | none => exact h
        | some cmd => exact h
      | badType => exact h
      | notJson => exact h
  | evTimer m =>
    simp only [wsStep]
    unfold timerFire
    cases hf : mfind m s.messagesInFlight <;> simp [hf, h]

theorem wsRun_preserves_closed (tr : List WsEvent) (s : WsState)
    (h : s.closedGracefully = true) :
    (wsRun s tr).closedGracefully = true := by
  induction tr generalizing s with
  | nil => exact h
  | cons e tr ih => exact ih _ (wsStep_preserves_closed e s h)

/-- C8: `close()` and a remote close with code 1000 set `closedGracefully`;
no handler ever resets it; and once it is set, every `request` with a valid
type returns a discard (no throw), sends no frame and leaves the state
untouched. -/
theorem claim_C8 :
    (∀ s, (closeOp s).1.closedGracefully = true) ∧
    (∀ s, (onCloseRemote 1000 s).1.closedGracefully = true) ∧
    (∀ s tr, s.closedGracefully = true →
      (wsRun s tr).closedGracefully = true) ∧
    (∀ s ri, s.closedGracefully = true → ri.typeValid = true →
      request ri s = (s, [],
        if s.maliciousClient then ReqResult.discardedMalicious
        else ReqResult.discardedClosed)) :=
  ⟨closeOp_closed, onCloseRemote_1000_closed,
    fun _ tr h => wsRun_preserves_closed tr _ h,
    fun s ri h hv => request_closed_discards s ri h hv⟩

/-- A gracefully closed requestor. -/
def c8State : WsState :=
  { mkWsRequestor "acct" none 5 with closedGracefully := true }

/-- A valid non-ack request arriving after the graceful close. -/
def c8Input : ReqInput :=
  { type := "verb:hook", typeValid := true, urlAbsHttp := false,
    msgid := "m8", pid := 2, connectOk := true, url := "/hook",
    data := JVal.null }

/-- Witness for C8: after a graceful close, a later request is discarded
with no actions and the flag survives other events. -/
theorem claim_C8_witness :
    c8State.closedGracefully = true ∧ c8Input.typeValid = true ∧
    request c8Input c8State = (c8State, [],
      if c8State.maliciousClient then ReqResult.discardedMalicious
      else ReqResult.discardedClosed) ∧
    (if c8State.maliciousClient then ReqResult.discardedMalicious
      else ReqResult.discardedClosed) = ReqResult.discardedClosed ∧
    (wsRun c8State [WsEvent.evTimer "m8",
        WsEvent.evMessage InContent.notJson false]).closedGracefully = true := by
  refine ⟨rfl, rfl, claim_C8.2.2.2 c8State c8Input rfl rfl, rfl,
    claim_C8.2.2.1 c8State [WsEvent.evTimer "m8",
      WsEvent.evMessage InContent.notJson false] rfl⟩

/-! ## Claim C2 — ack/timeout dichotomy for an in-flight send -/

/-- Events admissible while a send awaits its ack: inbound frames and timer
expiries (no local close, no further sends). -/
def isAckPhaseEvent : WsEvent → Bool
  | .evMessage _ _ => true
  | .evTimer _ => true
  | _ => false

/-- Whether an event is the matching ack or the timer expiry for `m`. -/
def isMEvent (m : String) : WsEvent → Bool
  | .evMessage (.ack (some m2) _) _ => m2 == m
  | .evTimer m2 => m2 == m
  | _ => false

/-- Number of settlements recorded for promise `pid`. -/
def settledCount (pid : Nat) (s : WsState) : Nat :=
  s.settled.countP (fun q => q.1 == pid)

/-- Invariant while the send for `m`, with promise `pid`, awaits its fate:
`m` is live in `messagesInFlight` and maps to `pid`, `pid` is unsettled, no
other map entry carries `pid`, and `this.isBinary` is (as always)
unassigned. -/
def PendingFor (m : String) (pid : Nat) (s : WsState) : Prop :=
  mfind m s.messagesInFlight = some pid ∧
  settledCount pid s = 0 ∧
  (∀ p ∈ s.messagesInFlight, p.2 = pid → p.1 = m) ∧
  s.isBinaryProp = none

/-- Invariant once the send for `m` has been settled: `m` is gone from the
map, `pid` settled exactly once, and no map entry carries `pid`. -/
def DoneFor (m : String) (pid : Nat) (s : WsState) : Prop :=
  mfind m s.messagesInFlight = none ∧
  settledCount pid s = 1 ∧
  (∀ p ∈ s.messagesInFlight, p.2 ≠ pid) ∧
  s.isBinaryProp = none

theorem recvAck_eq_found (m2 : String) (d : JVal) (s : WsState) (pid2 : Nat)
    (hf : mfind m2 s.messagesInFlight = some pid2) :
    recvAck m2 d s =
      { s with initMsgId := none,
               messagesInFlight := mdel m2 s.messagesInFlight,
               settled := s.settled ++ [(pid2, AckOutcome.resolved d)] } := by
  unfold recvAck
  simp only [hf]

theorem recvAck_eq_missing (m2 : String) (d : JVal) (s : WsState)
    (hf : mfind m2 s.messagesInFlight = none) :
    recvAck m2 d s = { s with initMsgId := none } := by
  unfold recvAck
  simp only [hf]

theorem timerFire_eq_found (m2 : String) (s : WsState) (pid2 : Nat)
    (hf : mfind m2 s.messagesInFlight = some pid2) :
    timerFire m2 s =
      { s with settled := s.settled ++ [(pid2, AckOutcome.rejectedTimeout m2)],
               messagesInFlight := mdel m2 s.messagesInFlight } := by
  unfold timerFire
  simp only [hf]

theorem timerFire_eq_missing (m2 : String) (s : WsState)
    (hf : mfind m2 s.messagesInFlight = none) :
    timerFire m2 s = { s with messagesInFlight := mdel m2 s.messagesInFlight } := by
  unfold timerFire
  simp only [hf]

/-- With `this.isBinary` unassigned, a well-formed inbound ack goes to
`_recvAck`. -/
theorem onMessage_ack_state (m2 : String) (d : JVal) (b : Bool) (s : WsState)
    (hbin : s.isBinaryProp = none) :
    (wsStep (WsEvent.evMessage (InContent.ack (some m2) d) b) s).1
      = recvAck m2 d s := by
  simp [wsStep, onMessage, hbin, jsTruthy]

/-- With `this.isBinary` unassigned, every other inbound frame leaves the
state unchanged (commands are emitted, parse failures alerted). -/
theorem onMessage_other_state (content : InContent) (b : Bool) (s : WsState)
    (hbin : s.isBinaryProp = none)
    (hno : ∀ m2 d, content ≠ InContent.ack (some m2) d) :
    (wsStep (WsEvent.evMessage content b) s).1 = s := by
  cases content with
  | ack om d =>
    cases om with
    | some m2 => exact absurd rfl (hno m2 d)
    | none => simp [wsStep, onMessage, hbin, jsTruthy]
  | command oc d => cases oc <;> simp [wsStep, onMessage, hbin, jsTruthy]
  | badType => simp [wsStep, onMessage, hbin, jsTruthy]
  | notJson => simp [wsStep, onMessage, hbin, jsTruthy]

theorem recvAck_found_flight (m2 : String) (d : JVal) (s : WsState)
    (pid2 : Nat) (hf : mfind m2 s.messagesInFlight = some pid2) :
    (recvAck m2 d s).messagesInFlight = mdel m2 s.messagesInFlight := by
  rw [recvAck_eq_found m2 d s pid2 hf]

theorem recvAck_found_settled (m2 : String) (d : JVal) (s : WsState)
    (pid2 : Nat) (hf : mfind m2 s.messagesInFlight = some pid2) :
    (recvAck m2 d s).settled
      = s.settled ++ [(pid2, AckOutcome.resolved d)] := by
  rw [recvAck_eq_found m2 d s pid2 hf]

theorem recvAck_missing_flight (m2 : String) (d : JVal) (s : WsState)
    (hf : mfind m2 s.messagesInFlight = none) :
    (recvAck m2 d s).messagesInFlight = s.messagesInFlight := by
  rw [recvAck_eq_missing m2 d s hf]

theorem recvAck_missing_settled (m2 : String) (d : JVal) (s : WsState)
    (hf : mfind m2 s.messagesInFlight = none) :
    (recvAck m2 d s).settled = s.settled := by
  rw [recvAck_eq_missing m2 d s hf]

theorem recvAck_bin (m2 : String) (d : JVal) (s : WsState) :
    (recvAck m2 d s).isBinaryProp = s.isBinaryProp := by
  cases hf : mfind m2 s.messagesInFlight with
  | none => rw [recvAck_eq_missing m2 d s hf]
  | some pid2 => rw [recvAck_eq_found m2 d s pid2 hf]

theorem timerFire_found_flight (m2 : String) (s : WsState) (pid2 : Nat)
    (hf : mfind m2 s.messagesInFlight = some pid2) :
    (timerFire m2 s).messagesInFlight = mdel m2 s.messagesInFlight := by
  rw [timerFire_eq_found m2 s pid2 hf]

theorem timerFire_found_settled (m2 : String) (s : WsState) (pid2 : Nat)
    (hf : mfind m2 s.messagesInFlight = some pid2) :
    (timerFire m2 s).settled
      = s.settled ++ [(pid2, AckOutcome.rejectedTimeout m2)] := by
  rw [timerFire_eq_found m2 s pid2 hf]

theorem timerFire_missing_flight (m2 : String) (s : WsState)
    (hf : mfind m2 s.messagesInFlight = none) :
    (timerFire m2 s).messagesInFlight = mdel m2 s.messagesInFlight := by
  rw [timerFire_eq_missing m2 s hf]

theorem timerFire_missing_settled (m2 : String) (s : WsState)
    (hf : mfind m2 s.messagesInFlight = none) :
    (timerFire m2 s).settled = s.settled := by
  rw [timerFire_eq_missing m2 s hf]

theorem timerFire_bin (m2 : String) (s : WsState) :
    (timerFire m2 s).isBinaryProp = s.isBinaryProp := by
  cases hf : mfind m2 s.messagesInFlight with
  | none => rw [timerFire_eq_missing m2 s hf]
  | some pid2 => rw [timerFire_eq_found m2 s pid2 hf]

theorem settledCount_append (pid pid2 : Nat) (o : AckOutcome)
    (l : List (Nat × AckOutcome)) :
    (l ++ [(pid2, o)]).countP (fun q => q.1 == pid)
      = l.countP (fun q => q.1 == pid) + (if pid2 = pid then 1 else 0) := by
  rw [List.countP_append]
  by_cases h : pid2 = pid <;> simp [List.countP_cons, h]

/-- A `_recvAck` or timer expiry for a different msgid, or any other inbound
frame, preserves the pending invariant. -/
theorem pending_after_other (m : String) (pid : Nat) (e : WsEvent)
    (s : WsState) (hP : PendingFor m pid s) (hA : isAckPhaseEvent e = true)
    (hM : isMEvent m e = false) : PendingFor m pid (wsStep e s).1 := by
  obtain ⟨hfind, hcount, huniq, hbin⟩ := hP
  cases e with
  | evRequest ri => simp [isAckPhaseEvent] at hA
  | evClose => simp [isAckPhaseEvent] at hA
  | evRemoteClose c => simp [isAckPhaseEvent] at hA
  | evTimer m2 =>
    have hne : m2 ≠ m := by simpa [isMEvent] using hM
    show PendingFor m pid (timerFire m2 s)
    cases hf : mfind m2 s.messagesInFlight with
    | none =>
      refine ⟨?_, ?_, ?_, ?_⟩
      · rw [timerFire_missing_flight m2 s hf,
            mfind_mdel_ne m m2 (Ne.symm hne)]
        exact hfind
      · unfold settledCount at hcount ⊢
        rw [timerFire_missing_settled m2 s hf]
        exact hcount
      · intro p hp hpv
        rw [timerFire_missing_flight m2 s hf] at hp
        exact huniq p (mem_of_mem_mdel hp) hpv
      · rw [timerFire_bin m2 s]
        exact hbin
    | some pid2 =>
      have hpid2 : pid2 ≠ pid := by
        intro hEq
        subst hEq
        exact hne (huniq (m2, pid2) (mfind_some_mem hf) rfl)
      refine ⟨?_, ?_, ?_, ?_⟩
      · rw [timerFire_found_flight m2 s pid2 hf,
            mfind_mdel_ne m m2 (Ne.symm hne)]
        exact hfind
      · unfold settledCount at hcount ⊢
        rw [timerFire_found_settled m2 s pid2 hf,
            settledCount_append pid pid2 _ s.settled, if_neg hpid2]
        simpa using hcount
      · intro p hp hpv
        rw [timerFire_found_flight m2 s pid2 hf] at hp
        exact huniq p (mem_of_mem_mdel hp) hpv
      · rw [timerFire_bin m2 s]
        exact hbin
  | evMessage content b =>
    by_cases hack : ∃ m2 d, content = InContent.ack (some m2) d
    · obtain ⟨m2, d, hc⟩ := hack
      subst hc
      have hne : m2 ≠ m := by simpa [isMEvent] using hM
      rw [onMessage_ack_state m2 d b s hbin]
      cases hf : mfind m2 s.messagesInFlight with
      | none =>
        refine ⟨?_, ?_, ?_, ?_⟩
        · rw [recvAck_missing_flight m2 d s hf]
          exact hfind
        · unfold settledCount at hcount ⊢
          rw [recvAck_missing_settled m2 d s hf]
          exact hcount
        · intro p hp hpv
          rw [recvAck_missing_flight m2 d s hf] at hp
          exact huniq p hp hpv
        · rw [recvAck_bin m2 d s]
          exact hbin
      | some pid2 =>
        have hpid2 : pid2 ≠ pid := by
          intro hEq
          subst hEq
          exact hne (huniq (m2, pid2) (mfind_some_mem hf) rfl)
        refine ⟨?_, ?_, ?_, ?_⟩
        · rw [recvAck_found_flight m2 d s pid2 hf,
              mfind_mdel_ne m m2 (Ne.symm hne)]
          exact hfind
        · unfold settledCount at hcount ⊢
          rw [recvAck_found_settled m2 d s pid2 hf,
              settledCount_append pid pid2 _ s.settled, if_neg hpid2]
          simpa using hcount
        · intro p hp hpv
          rw [recvAck_found_flight m2 d s pid2 hf] at hp
          exact huniq p (mem_of_mem_mdel hp) hpv
        · rw [recvAck_bin m2 d s]
          exact hbin
    · rw [onMessage_other_state content b s hbin
        (fun m2 d hc => hack ⟨m2, d, hc⟩)]
      exact ⟨hfind, hcount, huniq, hbin⟩

/-- The matching ack settles the pending send: the entry is removed and the
promise resolved with the ack data. -/
theorem pending_settle_ack (m : String) (pid : Nat) (d : JVal) (b : Bool)
    (s : WsState) (hP : PendingFor m pid s) :
    DoneFor m pid (wsStep (WsEvent.evMessage (InContent.ack (some m) d) b) s).1 ∧
    (pid, AckOutcome.resolved d)
      ∈ (wsStep (WsEvent.evMessage (InContent.ack (some m) d) b) s).1.settled := by
  obtain ⟨hfind, hcount, huniq, hbin⟩ := hP
  rw [onMessage_ack_state m d b s hbin]
  refine ⟨⟨?_, ?_, ?_, ?_⟩, ?_⟩
  · rw [recvAck_found_flight m d s pid hfind]
    exact mfind_mdel_self m s.messagesInFlight
  · unfold settledCount at hcount ⊢
    rw [recvAck_found_settled m d s pid hfind,
        settledCount_append pid pid _ s.settled, if_pos rfl]
    simp [hcount]
  · intro p hp hpv
    rw [recvAck_found_flight m d s pid hfind] at hp
    exact key_ne_of_mem_mdel hp (huniq p (mem_of_mem_mdel hp) hpv)
  · rw [recvAck_bin m d s]
    exact hbin
  · rw [recvAck_found_settled m d s pid hfind]
    exact List.mem_append_right _ (List.mem_singleton.mpr rfl)

/-- The timer expiry settles the pending send: the entry is removed and the
promise rejected with the timeout failure. -/
theorem pending_settle_timer (m : String) (pid : Nat) (s : WsState)
    (hP : PendingFor m pid s) :
    DoneFor m pid (wsStep (WsEvent.evTimer m) s).1 ∧
    (pid, AckOutcome.rejectedTimeout m)
      ∈ (wsStep (WsEvent.evTimer m) s).1.settled := by
  obtain ⟨hfind, hcount, huniq, hbin⟩ := hP
  show DoneFor m pid (timerFire m s) ∧
    (pid, AckOutcome.rejectedTimeout m) ∈ (timerFire m s).settled
  refine ⟨⟨?_, ?_, ?_, ?_⟩, ?_⟩
  · rw [timerFire_found_flight m s pid hfind]
    exact mfind_mdel_self m s.messagesInFlight
  · unfold settledCount at hcount ⊢
    rw [timerFire_found_settled m s pid hfind,
        settledCount_append pid pid _ s.settled, if_pos rfl]
    simp [hcount]
  · intro p hp hpv
    rw [timerFire_found_flight m s pid hfind] at hp
    exact key_ne_of_mem_mdel hp (huniq p (mem_of_mem_mdel hp) hpv)
  · rw [timerFire_bin m s]
    exact hbin
  · rw [timerFire_found_settled m s pid hfind]
    exact List.mem_append_right _ (List.mem_singleton.mpr rfl)

/-- Once settled, any further inbound frame or timer expiry keeps the send
settled exactly once and only ever appends to `settled`. -/
theorem done_after (m : String) (pid : Nat) (e : WsEvent) (s : WsState)
    (hD : DoneFor m pid s) (hA : isAckPhaseEvent e = true) :
    DoneFor m pid (wsStep e s).1 ∧
    (∀ q ∈ s.settled, q ∈ (wsStep e s).1.settled) := by
  obtain ⟨hfind, hcount, hnone, hbin⟩ := hD
  have hmdel : ∀ m2 : String, mfind m (mdel m2 s.messagesInFlight) = none := by
    intro m2
    by_cases hne : m = m2
    · subst hne
      exact mfind_mdel_self m s.messagesInFlight
    · rw [mfind_mdel_ne m m2 hne]
      exact hfind
  cases e with
  | evRequest ri => simp [isAckPhaseEvent] at hA
  | evClose => simp [isAckPhaseEvent] at hA
  | evRemoteClose c => simp [isAckPhaseEvent] at hA
  | evTimer m2 =>
    show DoneFor m pid (timerFire m2 s) ∧
      ∀ q ∈ s.settled, q ∈ (timerFire m2 s).settled
    cases hf : mfind m2 s.messagesInFlight with
    | none =>
      refine ⟨⟨?_, ?_, ?_, ?_⟩, ?_⟩
      · rw [timerFire_missing_flight m2 s hf]
        exact hmdel m2
      · unfold settledCount at hcount ⊢
        rw [timerFire_missing_settled m2 s hf]
        exact hcount
      · intro p hp
        rw [timerFire_missing_flight m2 s hf] at hp
        exact hnone p (mem_of_mem_mdel hp)
      · rw [timerFire_bin m2 s]
        exact hbin
      · intro q hq
        rw [timerFire_missing_settled m2 s hf]
        exact hq
    | some pid2 =>
      have hpid2 : pid2 ≠ pid := hnone (m2, pid2) (mfind_some_mem hf)
      refine ⟨⟨?_, ?_, ?_, ?_⟩, ?_⟩
      · rw [timerFire_found_flight m2 s pid2 hf]
        exact hmdel m2
      · unfold settledCount at hcount ⊢
        rw [timerFire_found_settled m2 s pid2 hf,
            settledCount_append pid pid2 _ s.settled, if_neg hpid2]
        simpa using hcount
      · intro p hp
        rw [timerFire_found_flight m2 s pid2 hf] at hp
        exact hnone p (mem_of_mem_mdel hp)
      · rw [timerFire_bin m2 s]
        exact hbin
      · intro q hq
        rw [timerFire_found_settled m2 s pid2 hf]
        exact List.mem_append_left _ hq
  | evMessage content b =>
    by_cases hack : ∃ m2 d, content = InContent.ack (some m2) d
    · obtain ⟨m2, d, hc⟩ := hack
      subst hc
      rw [onMessage_ack_state m2 d b s hbin]
      cases hf : mfind m2 s.messagesInFlight with
      | none =>
        refine ⟨⟨?_, ?_, ?_, ?_⟩, ?_⟩
        · rw [recvAck_missing_flight m2 d s hf]
          exact hfind
        · unfold settledCount at hcount ⊢
          rw [recvAck_missing_settled m2 d s hf]
          exact hcount
        · intro p hp
          rw [recvAck_missing_flight m2 d s hf] at hp
          exact hnone p hp
        · rw [recvAck_bin m2 d s]
          exact hbin
        · intro q hq
          rw [recvAck_missing_settled m2 d s hf]
          exact hq
      | some pid2 =>
        have hpid2 : pid2 ≠ pid := hnone (m2, pid2) (mfind_some_mem hf)
        refine ⟨⟨?_, ?_, ?_, ?_⟩, ?_⟩
        · rw [recvAck_found_flight m2 d s pid2 hf]
          exact hmdel m2
        · unfold settledCount at hcount ⊢
          rw [recvAck_found_settled m2 d s pid2 hf,
              settledCount_append pid pid2 _ s.settled, if_neg hpid2]
          simpa using hcount
        · intro p hp
          rw [recvAck_found_flight m2 d s pid2 hf] at hp
          exact hnone p (mem_of_mem_mdel hp)
        · rw [recvAck_bin m2 d s]
          exact hbin
        · intro q hq
          rw [recvAck_found_settled m2 d s pid2 hf]
          exact List.mem_append_left _ hq
    · rw [onMessage_other_state content b s hbin
        (fun m2 d hc => hack ⟨m2, d, hc⟩)]
      exact ⟨⟨hfind, hcount, hnone, hbin⟩, fun q hq => hq⟩

theorem done_run (m : String) (pid : Nat) (tr : List WsEvent) :
    ∀ s : WsState, DoneFor m pid s →
      (∀ e ∈ tr, isAckPhaseEvent e = true) →
      DoneFor m pid (wsRun s tr) ∧
      (∀ q ∈ s.settled, q ∈ (wsRun s tr).settled) := by
  induction tr with
  | nil => exact fun s hD _ => ⟨hD, fun q hq => hq⟩
  | cons e tr ih =>
    intro s hD hall
    have h1 := done_after m pid e s hD (hall e (by simp))
    have h2 := ih (wsStep e s).1 h1.1 (fun e2 he2 => hall e2 (by simp [he2]))
    exact ⟨h2.1, fun q hq => h2.2 q (h1.2 q hq)⟩

theorem pending_run (m : String) (pid : Nat) (tr : List WsEvent) :
    ∀ s : WsState, PendingFor m pid s →
      (∀ e ∈ tr, isAckPhaseEvent e = true) →
      (∃ e ∈ tr, isMEvent m e = true) →
      DoneFor m pid (wsRun s tr) ∧
      ((∃ d b, WsEvent.evMessage (InContent.ack (some m) d) b ∈ tr ∧
          (pid, AckOutcome.resolved d) ∈ (wsRun s tr).settled) ∨
        (pid, AckOutcome.rejectedTimeout m) ∈ (wsRun s tr).settled) := by
  induction tr with
  | nil =>
    intro s _ _ hex
    simp at hex
  | cons e tr ih =>
    intro s hP hall hex
    by_cases hMe : isMEvent m e = true
    · cases e with
      | evRequest ri => simp [isMEvent] at hMe
      | evClose => simp [isMEvent] at hMe
      | evRemoteClose c => simp [isMEvent] at hMe
      | evMessage content b =>
        cases content with
        | ack om d =>
          cases om with
          | none => simp [isMEvent] at hMe
          | some m2 =>
            have hm2 : m2 = m := by simpa [isMEvent] using hMe
            subst hm2
            have h1 := pending_settle_ack m2 pid d b s hP
            have h2 := done_run m2 pid tr _ h1.1
              (fun e2 he2 => hall e2 (by simp [he2]))
            refine ⟨h2.1, Or.inl ⟨d, b, by simp, h2.2 _ h1.2⟩⟩
        | command oc d => simp [isMEvent] at hMe
        | badType => simp [isMEvent] at hMe
        | notJson => simp [isMEvent] at hMe
      | evTimer m2 =>
        have hm2 : m2 = m := by simpa [isMEvent] using hMe
        subst hm2
        have h1 := pending_settle_timer m2 pid s hP
        have h2 := done_run m2 pid tr _ h1.1
          (fun e2 he2 => hall e2 (by simp [he2]))
        exact ⟨h2.1, Or.inr (h2.2 _ h1.2)⟩
    · have hA : isAckPhaseEvent e = true := hall e (by simp)
      have hP2 := pending_after_other m pid e s hP hA (by simpa using hMe)
      have hex2 : ∃ e2 ∈ tr, isMEvent m e2 = true := by
        obtain ⟨e2, he2, hm2⟩ := hex
        rcases List.mem_cons.mp he2 with h | h
        · subst h
          exact absurd hm2 hMe
        · exact ⟨e2, h, hm2⟩
      have h3 := ih (wsStep e s).1 hP2
        (fun e2 he2 => hall e2 (by simp [he2])) hex2
      refine ⟨h3.1, ?_⟩
      rcases h3.2 with ⟨d, b2, hmem, hset⟩ | hset
      · exact Or.inl ⟨d, b2, by simp [hmem], hset⟩
      · exact Or.inr hset

/-- A send of an ack-expecting type from a connected, healthy requestor
registers its msgid and promise, emits exactly the frame, and leaves the
settlements untouched. -/
theorem request_registers (s : WsState) (ri : ReqInput)
    (hvalid : ri.typeValid = true)
    (hcont : MTYPE_WANTS_ACK.contains ri.type = false)
    (hmal : s.maliciousClient = false) (hcl : s.closedGracefully = false)
    (hws : s.wsOpen = true) (hhttp : ri.urlAbsHttp = false)
    (hrec : ri.type = "session:reconnect" → s.initMsgId = none) :
    (request ri s).2.2 = ReqResult.sentAwaitingAck ∧
    (request ri s).2.1 = [WsAction.sendFrame ri.type ri.msgid] ∧
    (request ri s).1.messagesInFlight
      = mset ri.msgid ri.pid s.messagesInFlight ∧
    (request ri s).1.settled = s.settled ∧
    (request ri s).1.isBinaryProp = s.isBinaryProp := by
  have hmem : ri.type ∉ MTYPE_WANTS_ACK := by simpa using hcont
  by_cases hnew : ri.type = "session:new"
  · have hrecne : ri.type ≠ "session:reconnect" := by
      rw [hnew]
      decide
    rw [hnew] at hmem
    simp [request, hvalid, hmal, hcl, hhttp, hws, hnew, hrecne, hmem]
  · by_cases hrec2 : ri.type = "session:reconnect"
    · have hini := hrec hrec2
      rw [hrec2] at hmem
      simp [request, hvalid, hmal, hcl, hhttp, hws, hnew, hrec2, hini, hmem]
    · simp [request, hvalid, hmal, hcl, hhttp, hws, hnew, hrec2, hmem]

/-- C2 (amended): a send of an ack-expecting type registers `(msgid, pid)`;
then, provided only inbound frames and timer expiries follow (no `close()`,
no further sends) and the matching ack or the timer expiry for that msgid
eventually occurs — the `RESPONSE_TIMEOUT_MS` timer guarantees one of them
in real time — the promise is settled exactly once, either resolved with
the data of a received matching ack or rejected with the timeout failure,
and `messagesInFlight` no longer contains the msgid. (A `close()` before
that instead rejects the promise with the abandonment failure, or leaves it
pending when `_initMsgId` is set — the third outcome the claim excludes.) -/
theorem claim_C2_amended (s : WsState) (ri : ReqInput) (tr : List WsEvent)
    (hvalid : ri.typeValid = true)
    (hcont : MTYPE_WANTS_ACK.contains ri.type = false)
    (hrec : ri.type = "session:reconnect" → s.initMsgId = none)
    (hmal : s.maliciousClient = false) (hcl : s.closedGracefully = false)
    (hws : s.wsOpen = true) (hhttp : ri.urlAbsHttp = false)
    (hbin : s.isBinaryProp = none)
    (hfresh : settledCount ri.pid s = 0)
    (hpidfree : ∀ p ∈ s.messagesInFlight, p.2 ≠ ri.pid)
    (htr : ∀ e ∈ tr, isAckPhaseEvent e = true)
    (hfin : ∃ e ∈ tr, isMEvent ri.msgid e = true) :
    (request ri s).2.2 = ReqResult.sentAwaitingAck ∧
    mfind ri.msgid (wsRun (request ri s).1 tr).messagesInFlight = none ∧
    settledCount ri.pid (wsRun (request ri s).1 tr) = 1 ∧
    ((∃ d b, WsEvent.evMessage (InContent.ack (some ri.msgid) d) b ∈ tr ∧
        (ri.pid, AckOutcome.resolved d) ∈ (wsRun (request ri s).1 tr).settled) ∨
      (ri.pid, AckOutcome.rejectedTimeout ri.msgid)
        ∈ (wsRun (request ri s).1 tr).settled) := by
  have hreg := request_registers s ri hvalid hcont hmal hcl hws hhttp hrec
  have hPend : PendingFor ri.msgid ri.pid (request ri s).1 := by
    refine ⟨?_, ?_, ?_, ?_⟩
    · rw [hreg.2.2.1]
      exact mfind_mset_self ri.msgid ri.pid s.messagesInFlight
    · unfold settledCount
      rw [hreg.2.2.2.1]
      exact hfresh
    · intro p hp hpv
      rw [hreg.2.2.1] at hp
      unfold mset at hp
      rcases List.mem_append.mp hp with h | h
      · exact absurd hpv (hpidfree p (mem_of_mem_mdel h))
      · simp at h
        rw [h]
    · rw [hreg.2.2.2.2]
      exact hbin
  have hmain := pending_run ri.msgid ri.pid tr (request ri s).1 hPend htr hfin
  exact ⟨hreg.1, hmain.1.1, hmain.1.2.1, hmain.2⟩

/-- A connected requestor with one unacked send in flight and `_initMsgId`
clear, as after any ordinary ack-expecting send. -/
def c2State : WsState :=
  { mkWsRequestor "acct" none 5 with
      wsOpen := true
      connections := 1
      messagesInFlight := [("m1", 7)] }

/-- C2 counterexample: before the matching ack arrives or the response timer
expires, a `close()` settles the very same in-flight promise with the
abandonment rejection (`'abandoning msgid m1 since socket is closed'`) —
neither a resolution with ack data nor the timeout rejection, i.e. a third
outcome, which the claim rules out. -/
theorem claim_C2_counterexample :
    PendingFor "m1" 7 c2State ∧
    (wsRun c2State [WsEvent.evClose]).settled
      = [(7, AckOutcome.rejectedAbandoned "m1")] ∧
    AckOutcome.isResolved (AckOutcome.rejectedAbandoned "m1") = false ∧
    AckOutcome.isTimeout (AckOutcome.rejectedAbandoned "m1") = false ∧
    mfind "m1" (wsRun c2State [WsEvent.evClose]).messagesInFlight = none := by
  refine ⟨⟨rfl, rfl, ?_, rfl⟩, rfl, rfl, rfl, rfl⟩
  intro p hp hpv
  simp [c2State, mkWsRequestor] at hp
  rw [hp]

/-- A connected, healthy requestor with nothing in flight. -/
def c2wState : WsState :=
  { mkWsRequestor "acct" none 5 with wsOpen := true, connections := 1 }

/-- The ack-expecting send used in the C2 witness. -/
def c2wInput : ReqInput :=
  { type := "verb:hook", typeValid := true, urlAbsHttp := false,
    msgid := "mw", pid := 3, connectOk := true, url := "/hook",
    data := JVal.null }

/-- Witness for the amended C2: the send registers, the timer then fires,
and the promise is rejected with the timeout failure exactly once. -/
theorem claim_C2_amended_witness :
    MTYPE_WANTS_ACK.contains "verb:hook" = false ∧
    (request c2wInput c2wState).2.2 = ReqResult.sentAwaitingAck ∧
    mfind "mw" (wsRun (request c2wInput c2wState).1
      [WsEvent.evTimer "mw"]).messagesInFlight = none ∧
    settledCount 3 (wsRun (request c2wInput c2wState).1
      [WsEvent.evTimer "mw"]) = 1 := by
  have h := claim_C2_amended c2wState c2wInput [WsEvent.evTimer "mw"]
    rfl (by decide) (by decide) rfl rfl rfl rfl rfl rfl
    (by intro p hp; simp [c2wState, mkWsRequestor] at hp)
    (by decide) (by decide)
  exact ⟨by decide, h.1, h.2.1, h.2.2.1⟩

/-! ## Claim C3 — reconnect before the initial ack re-keys the entry -/

/-- A `session:reconnect` while the initial `session:new` is still unacked
(`_initMsgId` set): the in-flight entry is moved from the old msgid to the
fresh one, `_initMsgId` is updated, and the message is sent without
registering a new promise (`ws-requestor.js:243-260`). -/
theorem request_rekeys (s : WsState) (ri : ReqInput) (m1 : String) (pid : Nat)
    (hvalid : ri.typeValid = true)
    (htype : ri.type = "session:reconnect")
    (hmal : s.maliciousClient = false) (hcl : s.closedGracefully = false)
    (hws : s.wsOpen = true) (hhttp : ri.urlAbsHttp = false)
    (hinit : s.initMsgId = some m1)
    (hfound : mfind m1 s.messagesInFlight = some pid) :
    (request ri s).2.2 = ReqResult.sentNoAck ∧
    (request ri s).2.1 = [WsAction.sendFrame ri.type ri.msgid] ∧
    (request ri s).1.messagesInFlight
      = mset ri.msgid pid (mdel m1 s.messagesInFlight) ∧
    (request ri s).1.initMsgId = some ri.msgid ∧
    (request ri s).1.settled = s.settled := by
  simp [request, hvalid, hmal, hcl, hhttp, hws, htype, hinit, hfound,
    (show ("session:reconnect" : String) ≠ "session:new" by decide)]

/-- The state of test scenario 4 of the spec: `session:new` msgid `A` was
sent, the socket dropped and reopened, `_initMsgId` is still `A`. -/
def c3State : WsState :=
  { mkWsRequestor "acct" none 5 with
      wsOpen := true
      connections := 2
      messagesInFlight := [("A", 7)]
      initMsgId := some "A" }

/-- The `session:reconnect` send with fresh msgid `B`. -/
def c3Input : ReqInput :=
  { type := "session:reconnect", typeValid := true, urlAbsHttp := false,
    msgid := "B", pid := 9, connectOk := true, url := "wss://x",
    data := JVal.null }

/-- C3 counterexample: the entry is indeed re-keyed from `A` to `B`, and an
ack carrying the NEW msgid `B` resolves the original promise — but an ack
carrying the ORIGINAL msgid `A` resolves nothing: `_recvAck` finds no entry
under `A` (it was deleted by the re-key) and discards the ack, contradicting
the claim that an ack carrying either id resolves the original promise. -/
theorem claim_C3_counterexample :
    (request c3Input c3State).1.messagesInFlight = [("B", 7)] ∧
    (request c3Input c3State).1.initMsgId = some "B" ∧
    (recvAck "A" JVal.null (request c3Input c3State).1).settled = [] ∧
    (recvAck "A" JVal.null (request c3Input c3State).1).messagesInFlight
      = [("B", 7)] ∧
    (recvAck "B" JVal.null (request c3Input c3State).1).settled
      = [(7, AckOutcome.resolved JVal.null)] := by
  refine ⟨rfl, rfl, rfl, rfl, rfl⟩

/-- C3 (amended): if the socket drops before the `session:new` ack, the
`session:reconnect` send re-keys the in-flight entry to the new msgid and
updates `_initMsgId`; a subsequent ack carrying the NEW msgid resolves the
original `session:new` promise, while an ack carrying the ORIGINAL msgid is
discarded as unknown and resolves nothing. -/
theorem claim_C3_amended (s : WsState) (ri : ReqInput) (m1 : String)
    (pid : Nat) (d : JVal)
    (hvalid : ri.typeValid = true)
    (htype : ri.type = "session:reconnect")
    (hmal : s.maliciousClient = false) (hcl : s.closedGracefully = false)
    (hws : s.wsOpen = true) (hhttp : ri.urlAbsHttp = false)
    (hinit : s.initMsgId = some m1)
    (hflight : s.messagesInFlight = [(m1, pid)])
    (hne : m1 ≠ ri.msgid) :
    (request ri s).1.messagesInFlight = [(ri.msgid, pid)] ∧
    (request ri s).1.initMsgId = some ri.msgid ∧
    (request ri s).2.2 = ReqResult.sentNoAck ∧
    (recvAck ri.msgid d (request ri s).1).settled
      = s.settled ++ [(pid, AckOutcome.resolved d)] ∧
    (recvAck ri.msgid d (request ri s).1).messagesInFlight = [] ∧
    (recvAck m1 d (request ri s).1).settled = s.settled ∧
    (recvAck m1 d (request ri s).1).messagesInFlight = [(ri.msgid, pid)] := by
  have hfound : mfind m1 s.messagesInFlight = some pid := by
    rw [hflight]
    simp [mfind, List.find?]
  have hr := request_rekeys s ri m1 pid hvalid htype hmal hcl hws hhttp
    hinit hfound
  have hflight2 : (request ri s).1.messagesInFlight = [(ri.msgid, pid)] := by
    rw [hr.2.2.1, hflight]
    simp [mset, mdel, List.filter]
  have hf2 : mfind ri.msgid (request ri s).1.messagesInFlight = some pid := by
    rw [hflight2]
    simp [mfind, List.find?]
  have hbeq : (ri.msgid == m1) = false := by
    simp [Ne.symm hne]
  have hf1 : mfind m1 (request ri s).1.messagesInFlight = none := by
    rw [hflight2]
    simp [mfind, List.find?, hbeq]
  refine ⟨hflight2, hr.2.2.2.1, hr.1, ?_, ?_, ?_, ?_⟩
  · rw [recvAck_found_settled ri.msgid d _ pid hf2, hr.2.2.2.2]
  · rw [recvAck_found_flight ri.msgid d _ pid hf2, hflight2]
    simp [mdel, List.filter]
  · rw [recvAck_missing_settled m1 d _ hf1, hr.2.2.2.2]
  · rw [recvAck_missing_flight m1 d _ hf1, hflight2]

/-- Witness for the amended C3 on the concrete scenario state. -/
theorem claim_C3_amended_witness :
    c3Input.type = "session:reconnect" ∧ c3State.initMsgId = some "A" ∧
    ("A" : String) ≠ "B" ∧
    (request c3Input c3State).1.messagesInFlight = [("B", 7)] ∧
    (recvAck "B" JVal.null (request c3Input c3State).1).settled
      = [(7, AckOutcome.resolved JVal.null)] := by
  have h := claim_C3_amended c3State c3Input "A" 7 JVal.null
    rfl rfl rfl rfl rfl rfl rfl rfl (by decide)
  exact ⟨rfl, rfl, by decide, h.1, h.2.2.2.1⟩

end Jambonz
